import Mathlib

/-!
Verification of the 100-prisoner-problem simulation (src/algorithms.py,
src/config.py, src/runner.py) against its natural-language specification.

The Python source is shallowly embedded below: pure arithmetic becomes Lean
functions over `Nat`/`Int`/`ℚ`, the numpy envelope array becomes `List Nat`,
Python exceptions become `Except String`, and the process-wide random source
is passed in explicitly (a list of drawn indices, or the already-shuffled
assignment).
-/

namespace PrisonerProblem

/-- `AttemptSchema._round` (src/algorithms.py, lines 26-32): `math.floor` or
`math.ceil` of the exact rational number of attempts, depending on `lower`. -/
def pyRound (x : ℚ) (lower : Bool) : Int :=
  if lower then Int.floor x else Int.ceil x

/-- `AttemptSchema._default` (src/algorithms.py, lines 34-35):
`nEnvelopes / 2` rounded per `lower`. -/
def attemptDefault (nEnvelopes : Nat) (lower : Bool) : Int :=
  pyRound ((nEnvelopes : ℚ) / 2) lower

/-- `AttemptSchema._modified` (src/algorithms.py, lines 37-38):
`nEnvelopes / param` rounded per `lower` (callers guarantee `param ≠ 0`). -/
def attemptModified (nEnvelopes param : Nat) (lower : Bool) : Int :=
  pyRound ((nEnvelopes : ℚ) / (param : ℚ)) lower

/-- `AttemptSchema.__init__` (src/algorithms.py, lines 17-24) dispatching
through `func_map`.  With schema `modified` and `param=None`, Python evaluates
`nEnvelopes/None` and raises `TypeError`; with `param=0` it raises
`ZeroDivisionError`; an unknown schema raises `KeyError` on `func_map`. -/
def attemptCompute (nEnvelopes : Nat) (schema : String) (param : Option Nat)
    (lower : Bool) : Except String Int :=
  if schema = ("default") then Except.ok (attemptDefault nEnvelopes lower)
  else if schema = ("modified") then
    match param with
    | none => Except.error ("TypeError: unsupported operand type for /: int and NoneType")
    | some 0 => Except.error ("ZeroDivisionError: division by zero")
    | some d => Except.ok (attemptModified nEnvelopes d lower)
  else Except.error ("KeyError: unknown schema")

lemma floor_div_nat_q (n d : Nat) :
    Int.floor ((n : ℚ) / (d : ℚ)) = ((n / d : Nat) : Int) := by
  rw [← Int.natCast_floor_eq_floor (by positivity), Nat.floor_div_eq_div]

lemma ceil_div_nat_q (n d : Nat) (hd : 0 < d) :
    Int.ceil ((n : ℚ) / (d : ℚ)) = (((n + d - 1) / d : Nat) : Int) := by
  have hd' : (0 : ℚ) < (d : ℚ) := by exact_mod_cast hd
  have hmod := Nat.div_add_mod (n + d - 1) d
  have hrlt : (n + d - 1) % d < d := Nat.mod_lt _ hd
  rw [Int.ceil_eq_iff]
  set q := (n + d - 1) / d with hq
  have h1 : d * q ≤ n + d - 1 := Nat.le.intro hmod
  have h2 : n + d - 1 < d * q + d := by
    rw [← hmod]
    exact Nat.add_lt_add_left hrlt _
  have h3 : n ≤ d * q := by
    generalize d * q = t at h2 ⊢
    omega
  have h4 : d * q < n + d := by
    generalize d * q = t at h1 ⊢
    omega
  have h3q : (n : ℚ) ≤ ((d * q : ℕ) : ℚ) := by exact_mod_cast h3
  have h4q : ((d * q : ℕ) : ℚ) < (n : ℚ) + (d : ℚ) := by exact_mod_cast h4
  push_cast at h3q h4q
  constructor
  · push_cast
    rw [sub_lt_iff_lt_add]
    have hsum : ((n : ℚ) + d) / d = n / d + 1 := by
      field_simp
    rw [← hsum, lt_div_iff₀ hd']
    nlinarith [h4q]
  · push_cast
    rw [div_le_iff₀ hd']
    nlinarith [h3q]

/-- One opening of the loop strategy (src/algorithms.py, line 106):
`check = unchecked[guess]`, reading the envelope indexed by the previously
revealed value.  Callers keep indices in range, so the `getD` default is
never consulted there. -/
def stepF (env : List Nat) (x : Nat) : Nat := env.getD x 0

/-- The `while` loop of `LoopSelect._run` (src/algorithms.py, lines 101-113):
each iteration decrements `attempts`, increments `loop_size`, opens the
envelope indexed by the previous content, and on finding the prisoner's own
number succeeds exactly when the decremented `attempts` is still positive,
otherwise breaks with failure.  `fuel` bounds the iterations (the Python loop
has no bound; for a permutation assignment `env.length` openings always
suffice, see `loopRun_eq`); `none` means the fuel ran out. -/
def loopGo (p : Nat) (env : List Nat) : Nat → Nat → Int → Nat → Option (Bool × Nat)
  | 0, _, _, _ => none
  | fuel + 1, check, a, ls =>
    if p = stepF env check then
      if 0 < a - 1 then some (true, ls + 1) else some (false, ls + 1)
    else loopGo p env fuel (stepF env check) (a - 1) (ls + 1)

/-- `LoopSelect._run` (src/algorithms.py, lines 95-114): start at the envelope
indexed by the prisoner's own number with `loop_size = 0`; returns
`(success, loop_size)`. -/
def loopRun (p : Nat) (env : List Nat) (a : Int) : Option (Bool × Nat) :=
  loopGo p env env.length p a 0

/-- Opening counter for the same walk: the number of openings after which the
content first equals the prisoner's number (the spec's "distance ... within
the cycle containing the searcher's identity"). -/
def distGo (p : Nat) (env : List Nat) : Nat → Nat → Nat → Option Nat
  | 0, _, _ => none
  | fuel + 1, check, c =>
    if p = stepF env check then some (c + 1)
    else distGo p env fuel (stepF env check) (c + 1)

/-- Distance (in openings) from the prisoner's own slot to the slot holding
the prisoner's number, along the loop walk. -/
def loopDistance (p : Nat) (env : List Nat) : Option Nat :=
  distGo p env env.length p 0

lemma loopGo_eq_distGo (p : Nat) (env : List Nat) (fuel : Nat) :
    ∀ (check : Nat) (a : Int) (c : Nat),
      loopGo p env fuel check a c =
        (distGo p env fuel check c).map
          (fun r : Nat => (decide ((r : Int) - (c : Int) < a), r)) := by
  induction fuel with
  | zero => intro check a c; rfl
  | succ fuel ih =>
    intro check a c
    simp only [loopGo, distGo]
    by_cases h : p = stepF env check
    · rw [if_pos h, if_pos h, Option.map_some']
      have hc : ((c + 1 : Nat) : Int) - c = 1 := by push_cast; ring
      by_cases ha : (1 : Int) < a
      · rw [if_pos (by omega : (0 : Int) < a - 1)]
        simp [hc, ha]
      · rw [if_neg (by omega : ¬ (0 : Int) < a - 1)]
        simp [hc, ha]
    · rw [if_neg h, if_neg h, ih]
      cases hdg : distGo p env fuel (stepF env check) (c + 1) with
      | none => rfl
      | some r =>
        rw [Option.map_some', Option.map_some']
        have hiff : ((r : Int) - (c + 1) < a - 1) ↔ ((r : Int) - c < a) := by
          omega
        simp [hiff]

lemma distGo_some (p : Nat) (env : List Nat) (fuel : Nat) :
    ∀ (check c r : Nat), distGo p env fuel check c = some r →
      c < r ∧ r ≤ c + fuel ∧ (stepF env)^[r - c] check = p ∧
        ∀ k, 1 ≤ k → k < r - c → (stepF env)^[k] check ≠ p := by
  induction fuel with
  | zero => intro check c r h; exact absurd h (by rw [distGo]; exact Option.noConfusion)
  | succ fuel ih =>
    intro check c r h
    rw [distGo] at h
    by_cases hp : p = stepF env check
    · rw [if_pos hp] at h
      obtain rfl : c + 1 = r := Option.some.inj h
      refine ⟨by omega, by omega, ?_, ?_⟩
      · rw [Nat.add_sub_cancel_left, Function.iterate_one]
        exact hp.symm
      · intro k hk1 hk2
        rw [Nat.add_sub_cancel_left] at hk2
        omega
    · rw [if_neg hp] at h
      obtain ⟨h1, h2, h3, h4⟩ := ih (stepF env check) (c + 1) r h
      refine ⟨by omega, by omega, ?_, ?_⟩
      · have hrc : r - c = (r - (c + 1)) + 1 := by omega
        rw [hrc, Function.iterate_succ_apply]
        exact h3
      · intro k hk1 hk2
        cases k with
        | zero => omega
        | succ k' =>
          rw [Function.iterate_succ_apply]
          cases Nat.eq_zero_or_pos k' with
          | inl hz =>
            subst hz
            rw [Function.iterate_zero_apply]
            exact fun hcon => hp hcon.symm
          | inr hpos =>
            exact h4 k' hpos (by omega)

lemma distGo_ne_none (p : Nat) (env : List Nat) (fuel : Nat) :
    ∀ (check c : Nat), (∃ k, 1 ≤ k ∧ k ≤ fuel ∧ (stepF env)^[k] check = p) →
      distGo p env fuel check c ≠ none := by
  induction fuel with
  | zero =>
    intro check c ⟨k, hk1, hk2, _⟩
    omega
  | succ fuel ih =>
    intro check c ⟨k, hk1, hk2, hk3⟩
    rw [distGo]
    by_cases hp : p = stepF env check
    · rw [if_pos hp]
      exact Option.noConfusion
    · rw [if_neg hp]
      apply ih
      cases k with
      | zero => omega
      | succ k' =>
        cases Nat.eq_zero_or_pos k' with
        | inl hz =>
          subst hz
          rw [Function.iterate_one] at hk3
          exact absurd hk3.symm hp
        | inr hpos =>
          rw [Function.iterate_succ_apply] at hk3
          exact ⟨k', hpos, by omega, hk3⟩

lemma exists_iterate_eq_self (env : List Nat) (p : Nat)
    (hlen : ∀ x ∈ env, x < env.length) (hnd : env.Nodup) (hp : p < env.length) :
    ∃ k, 1 ≤ k ∧ k ≤ env.length ∧ (stepF env)^[k] p = p := by
  set n := env.length with hn
  have hmaps : ∀ x, x < n → stepF env x < n := by
    intro x hx
    apply hlen
    rw [stepF, List.getD_eq_getElem env 0 hx]
    exact List.getElem_mem hx
  have hinj : ∀ x, x < n → ∀ y, y < n → stepF env x = stepF env y → x = y := by
    intro x hx y hy hxy
    rw [stepF, stepF, List.getD_eq_getElem env 0 hx, List.getD_eq_getElem env 0 hy] at hxy
    exact (hnd.getElem_inj_iff).mp hxy
  have hiter : ∀ i, (stepF env)^[i] p < n := by
    intro i
    induction i with
    | zero => simpa using hp
    | succ i ihi =>
      rw [Function.iterate_succ_apply']
      exact hmaps _ ihi
  have hcard : (Finset.range n).card < (Finset.range (n + 1)).card := by simp
  obtain ⟨i, hi, j, hj, hne, heq⟩ :=
    Finset.exists_ne_map_eq_of_card_lt_of_maps_to hcard
      (fun i _ => Finset.mem_range.mpr (hiter i))
  have cancel : ∀ i m, (stepF env)^[i + m] p = (stepF env)^[i] p → (stepF env)^[m] p = p := by
    intro i
    induction i with
    | zero => intro m h; simpa using h
    | succ i ihi =>
      intro m h
      apply ihi
      have hidx : i + 1 + m = (i + m) + 1 := by omega
      rw [hidx, Function.iterate_succ_apply', Function.iterate_succ_apply'] at h
      exact hinj _ (hiter _) _ (hiter _) h
  rw [Finset.mem_range] at hi hj
  rcases Nat.lt_or_ge i j with hlt | hge
  · refine ⟨j - i, by omega, by omega, ?_⟩
    apply cancel i
    have : i + (j - i) = j := by omega
    rw [this]
    exact heq.symm
  · have hlt : j < i := by omega
    refine ⟨i - j, by omega, by omega, ?_⟩
    apply cancel j
    have : j + (i - j) = i := by omega
    rw [this]
    exact heq

/-- For a permutation assignment, `LoopSelect._run` always terminates within
`env.length` openings and returns `(success, loop_size)` with
`loop_size = d`, the distance to the prisoner's own number, and
`success ⟺ attempts > d` (strictly greater). -/
lemma loopRun_eq (env : List Nat) (p : Nat) (a : Int)
    (hlen : ∀ x ∈ env, x < env.length) (hnd : env.Nodup) (hp : p < env.length) :
    ∃ d, loopDistance p env = some d ∧
      1 ≤ d ∧ d ≤ env.length ∧ (stepF env)^[d] p = p ∧
      (∀ k, 1 ≤ k → k < d → (stepF env)^[k] p ≠ p) ∧
      loopRun p env a = some (decide ((d : Int) < a), d) := by
  obtain ⟨k, hk1, hk2, hk3⟩ := exists_iterate_eq_self env p hlen hnd hp
  have hne := distGo_ne_none p env env.length p 0 ⟨k, hk1, hk2, hk3⟩
  obtain ⟨d, hd⟩ : ∃ d, distGo p env env.length p 0 = some d := by
    cases hdg : distGo p env env.length p 0 with
    | none => exact absurd hdg hne
    | some d => exact ⟨d, rfl⟩
  obtain ⟨h1, h2, h3, h4⟩ := distGo_some p env env.length p 0 d hd
  rw [Nat.sub_zero] at h3 h4
  refine ⟨d, hd, by omega, by omega, h3, h4, ?_⟩
  rw [loopRun, loopGo_eq_distGo, hd, Option.map_some']
  norm_num

/-- The numpy slice `unchecked[-guess:]`: for `guess = 0` this is the whole
array (`a[-0:] = a[0:]`), otherwise the last `guess` elements. -/
def npTail (l : List Nat) (g : Nat) : List Nat :=
  if g = 0 then l else l.drop (l.length - g)

/-- The update `unchecked = np.append(unchecked[:guess], unchecked[-guess:])`
of `RandomSelect._run` (src/algorithms.py, line 86). -/
def removeStep (l : List Nat) (g : Nat) : List Nat :=
  l.take g ++ npTail l g

/-- The `while` loop of `RandomSelect._run` (src/algorithms.py, lines 78-89).
The random draws `random.choice(range(len(unchecked)))` are supplied
explicitly as the index list `choices`, and the numpy stores are threaded
explicitly: the result is `(success, opened contents in order, trial
envelope array, final unchecked array)`.  The opened-contents component is an
observation sequence used to state re-opening properties. -/
def randomGo (p : Nat) : Nat → List Nat → List Nat → List Nat → List Nat →
    Bool × List Nat × List Nat × List Nat
  | 0, env, unchecked, _, opened => (false, opened, env, unchecked)
  | _ + 1, env, unchecked, [], opened => (false, opened, env, unchecked)
  | a + 1, env, unchecked, g :: rest, opened =>
    if p = unchecked.getD g 0 then
      (true, opened ++ [unchecked.getD g 0], env, removeStep unchecked g)
    else randomGo p a env (removeStep unchecked g) rest (opened ++ [unchecked.getD g 0])

/-- `Algorithm.select` for `RandomSelect`: `self._unchecked` starts as
`self._envelopes.copy()` (src/algorithms.py, line 54), then the loop runs. -/
def randomSelect (p : Nat) (env : List Nat) (a : Nat) (choices : List Nat) :
    Bool × List Nat × List Nat × List Nat :=
  randomGo p a env env choices []

/-- `LoopSelect._run` with the trial's envelope store threaded explicitly.
The loop only reads the store (source comment, line 104: "We don't need to
update unchecked ... we don't want to update it"), so every exit returns the
store unchanged. -/
def loopGoS (p : Nat) : Nat → Nat → Int → Nat → List Nat →
    Option (Bool × Nat) × List Nat
  | 0, _, _, _, env => (none, env)
  | fuel + 1, check, a, ls, env =>
    if p = stepF env check then
      if 0 < a - 1 then (some (true, ls + 1), env) else (some (false, ls + 1), env)
    else loopGoS p fuel (stepF env check) (a - 1) (ls + 1) env

/-- `Algorithm.select` for `LoopSelect`, with the envelope store threaded. -/
def loopSelectS (p : Nat) (env : List Nat) (a : Int) : Option (Bool × Nat) × List Nat :=
  loopGoS p env.length p a 0 env

lemma randomGo_env (p : Nat) (a : Nat) :
    ∀ (env unchecked choices opened : List Nat),
      (randomGo p a env unchecked choices opened).2.2.1 = env := by
  induction a with
  | zero => intro env unchecked choices opened; rfl
  | succ a ih =>
    intro env unchecked choices opened
    cases choices with
    | nil => rfl
    | cons g rest =>
      simp only [randomGo]
      by_cases h : p = unchecked.getD g 0
      · rw [if_pos h]
      · rw [if_neg h]
        exact ih env (removeStep unchecked g) rest (opened ++ [unchecked.getD g 0])

lemma loopGoS_eq (p : Nat) (fuel : Nat) :
    ∀ (check : Nat) (a : Int) (ls : Nat) (env : List Nat),
      loopGoS p fuel check a ls env = (loopGo p env fuel check a ls, env) := by
  induction fuel with
  | zero => intro check a ls env; rfl
  | succ fuel ih =>
    intro check a ls env
    simp only [loopGoS, loopGo]
    by_cases h : p = stepF env check
    · rw [if_pos h, if_pos h]
      by_cases ha : (0 : Int) < a - 1
      · rw [if_pos ha, if_pos ha]
      · rw [if_neg ha, if_neg ha]
    · rw [if_neg h, if_neg h]
      exact ih (stepF env check) (a - 1) (ls + 1) env

/-- C1 (amended): for every permutation assignment, searcher, and attempts
value, `LoopSelect._run` terminates, reports `loop_size = d` where `d` is the
distance (in openings) from the searcher's identity to its own number in the
cycle (`1 ≤ d ≤ n`, first index at which the walk reveals the target), and
succeeds iff `attempts` is STRICTLY greater than `d` — not `≥ d` as the claim
states: the code decrements `attempts` before the success test, so a searcher
whose distance equals the budget exactly fails. -/
theorem loop_search_success_iff_attempts_gt_distance (env : List Nat) (p : Nat) (a : Int)
    (hlen : ∀ x ∈ env, x < env.length) (hnd : env.Nodup) (hp : p < env.length) :
    ∃ d, loopDistance p env = some d ∧
      1 ≤ d ∧ d ≤ env.length ∧ (stepF env)^[d] p = p ∧
      (∀ k, 1 ≤ k → k < d → (stepF env)^[k] p ≠ p) ∧
      loopRun p env a = some (decide ((d : Int) < a), d) :=
  loopRun_eq env p a hlen hnd hp

/-- Witness for C1 at the 2-cycle `[1, 0]`, searcher 0, attempts 3: the
distance is 2 and the searcher succeeds since `2 < 3`. -/
theorem loop_search_success_iff_attempts_gt_distance_witness :
    ∃ d, loopDistance 0 [1, 0] = some d ∧
      1 ≤ d ∧ d ≤ [1, 0].length ∧ (stepF [1, 0])^[d] 0 = 0 ∧
      (∀ k, 1 ≤ k → k < d → (stepF [1, 0])^[k] 0 ≠ 0) ∧
      loopRun 0 [1, 0] 3 = some (decide ((d : Int) < 3), d) :=
  loop_search_success_iff_attempts_gt_distance [1, 0] 0 3 (by decide) (by decide) (by decide)

/-- C1 counterexample: on the identity assignment `[0]`, searcher 0 has
distance 1 to its own number, and with `attempts = 1` the claim ("when that
distance equals attempts exactly, the searcher succeeds") demands success,
but `LoopSelect._run` returns `success = false` (with `loop_size = 1`). -/
theorem loop_search_distance_eq_attempts_fails :
    loopDistance 0 [0] = some 1 ∧ loopRun 0 [0] 1 = some (false, 1) := by
  decide

/-- C3 counterexample: with 4 slots, Default budget rounded down (= 2) and
the 4-cycle assignment `[1, 2, 3, 0]`, searcher 0 gets
`loop_size = 4` (the walk keeps counting until the cycle closes), not the
claimed budget-exhaustion value 2. -/
theorem loop_search_four_cycle_loop_size_ne_two :
    attemptDefault 4 true = 2 ∧
    loopRun 0 [1, 2, 3, 0] (attemptDefault 4 true) = some (false, 4) := by
  have hB : attemptDefault 4 true = 2 := by
    norm_num [attemptDefault, pyRound]
  rw [hB]
  exact ⟨rfl, by decide⟩

/-- C3 (amended): with 4 searchers, 4 slots, Default budget rounded down
(budget 2) and the single 4-cycle assignment `[1, 2, 3, 0]`, every searcher
fails, and the reported `loop_size` is 4 (the full cycle length: the loop
keeps counting after the budget is exhausted until the cycle returns to the
start), not 2. -/
theorem loop_search_four_cycle_all_fail :
    attemptDefault 4 true = 2 ∧
    loopRun 0 [1, 2, 3, 0] (attemptDefault 4 true) = some (false, 4) ∧
    loopRun 1 [1, 2, 3, 0] (attemptDefault 4 true) = some (false, 4) ∧
    loopRun 2 [1, 2, 3, 0] (attemptDefault 4 true) = some (false, 4) ∧
    loopRun 3 [1, 2, 3, 0] (attemptDefault 4 true) = some (false, 4) := by
  have hB : attemptDefault 4 true = 2 := by
    norm_num [attemptDefault, pyRound]
  rw [hB]
  exact ⟨rfl, by decide, by decide, by decide, by decide⟩

/-- C8: the Default budget is `floor(n/2)` for `roundDown=true` and `ceil(n/2)`
(= `(n+1)/2` in integer arithmetic) for `roundDown=false`; the Modified budget
with divisor `d > 0` is `floor(n/d)` resp. `ceil(n/d)` (= `(n+d-1)/d`); and
Modified with `d = 2`, `roundDown=true` coincides with Default. -/
theorem attempt_budget_values (n d : Nat) (hd : 0 < d) :
    attemptDefault n true = ((n / 2 : Nat) : Int) ∧
    attemptDefault n false = (((n + 1) / 2 : Nat) : Int) ∧
    attemptModified n d true = ((n / d : Nat) : Int) ∧
    attemptModified n d false = (((n + d - 1) / d : Nat) : Int) ∧
    attemptModified n 2 true = attemptDefault n true := by
  refine ⟨?_, ?_, ?_, ?_, ?_⟩
  · simpa [attemptDefault, pyRound] using floor_div_nat_q n 2
  · have := ceil_div_nat_q n 2 (by norm_num)
    simpa [attemptDefault, pyRound] using this
  · simpa [attemptModified, pyRound] using floor_div_nat_q n d
  · simpa [attemptModified, pyRound] using ceil_div_nat_q n d hd
  · simp [attemptModified, attemptDefault]

/-- Witness for C8 at `n = 5`, `d = 3`. -/
theorem attempt_budget_values_witness :
    attemptDefault 5 true = ((5 / 2 : Nat) : Int) ∧
    attemptDefault 5 false = (((5 + 1) / 2 : Nat) : Int) ∧
    attemptModified 5 3 true = ((5 / 3 : Nat) : Int) ∧
    attemptModified 5 3 false = (((5 + 3 - 1) / 3 : Nat) : Int) ∧
    attemptModified 5 2 true = attemptDefault 5 true :=
  attempt_budget_values 5 3 (by decide)

/-- C2: `np.append(unchecked[:guess], unchecked[-guess:])` does not delete
index `guess`: with `guess = 0` the array is unchanged (the opened slot stays
under consideration), so the same searcher can open the same slot twice.  A
prisoner looking for 99 in `[10, 20]` with 2 attempts and random indices
`[0, 0]` opens content 10 twice, and the unexamined collection never loses
the opened slot. -/
theorem random_search_reopens_slot :
    removeStep [10, 20] 0 = [10, 20] ∧
    (randomSelect 99 [10, 20] 2 [0, 0]).2.1 = [10, 10] := by
  decide

/-- C9: neither strategy run mutates the trial's assignment: the envelope
store component of the state is returned unchanged by `RandomSelect` (which
rebinds a fresh `unchecked` built by `np.append`, never writing the shared
array) and by `LoopSelect` (which only reads), for every searcher, budget,
assignment and random draw sequence. -/
theorem strategies_preserve_assignment (p : Nat) (env : List Nat) (aR : Nat)
    (choices : List Nat) (aL : Int) :
    (randomSelect p env aR choices).2.2.1 = env ∧
    (loopSelectS p env aL).2 = env := by
  constructor
  · exact randomGo_env p aR env env choices []
  · rw [loopSelectS, loopGoS_eq]

/-- `Trial._run_algo` (src/runner.py, lines 39-58): the `data` column built
for one strategy in one trial, one boolean per prisoner in prisoner order. -/
def runAlgoData (outcome : Nat → Bool) (prisoners : List Nat) : List Bool :=
  prisoners.map outcome

/-- The progress-update guard of `Simulation.simulate` (src/runner.py, line
170): `(chunks != None) & ((i % int(nTrials/chunks)) == 0)`.  Python's `&` is
the non-short-circuiting bitwise operator, so both operands are evaluated:
with `chunks = None` the right operand computes `nTrials/None` and raises
`TypeError` even though the left operand is already `False`; when
`int(nTrials/chunks) = 0` the modulus raises `ZeroDivisionError`. -/
def progressCheck (chunks : Option Nat) (nTrials i : Nat) : Except String Bool :=
  match chunks with
  | none => Except.error ("TypeError: unsupported operand type for /: int and NoneType")
  | some c =>
    if c = 0 then Except.error ("ZeroDivisionError: division by zero")
    else if nTrials / c = 0 then
      Except.error ("ZeroDivisionError: integer division or modulo by zero")
    else Except.ok (decide (i % (nTrials / c) = 0))

/-- The trial loop of `Simulation.simulate` (src/runner.py, lines 168-171)
restricted to its progress reporting: the indices of trials at which a
progress update is printed, or the exception that aborts the run. -/
def simulateReports (chunks : Option Nat) (nTrials : Nat) : Except String (List Nat) :=
  (List.range nTrials).foldlM
    (fun acc i => do
      let b ← progressCheck chunks nTrials i
      pure (if b then acc ++ [i] else acc))
    []

/-- C5: when no progress cadence is configured (`chunks` is `None`), the
simulation does not complete silently as claimed: the guard's right operand
evaluates `nTrials/None` on the very first trial and the run aborts with a
`TypeError`. -/
theorem simulate_none_chunks_raises (nTrials : Nat) (h : 0 < nTrials) :
    simulateReports none nTrials =
      Except.error ("TypeError: unsupported operand type for /: int and NoneType") := by
  obtain ⟨m, rfl⟩ : ∃ m, nTrials = m + 1 := ⟨nTrials - 1, by omega⟩
  rw [simulateReports, List.range_succ_eq_map]
  rfl

/-- Witness for C5: one configured trial with `chunks = None` aborts. -/
theorem simulate_none_chunks_raises_witness :
    simulateReports none 1 =
      Except.error ("TypeError: unsupported operand type for /: int and NoneType") :=
  simulate_none_chunks_raises 1 (by decide)

/-- Per-trial success total: `self.data[name].sum()` of one column. -/
def colSum (col : List Bool) : Nat := col.count true

/-- `value_counts()` of the per-trial success totals: each distinct total
paired with its frequency.  (pandas orders the series by descending
frequency; the order is irrelevant for the properties below, so first-seen
order is used.) -/
def valueCounts (sums : List Nat) : List (Nat × Nat) :=
  sums.dedup.map (fun v => (v, sums.count v))

/-- `idxmax()` on a pandas series: the index attaining the maximal value;
raises `ValueError` on an empty series. -/
def idxmax : List (Nat × Nat) → Except String Nat
  | [] => Except.error ("ValueError: attempt to get argmax of an empty sequence")
  | x :: rest =>
    Except.ok ((rest.foldl (fun best y => if best.2 < y.2 then y else best) x).1)

/-- `Simulation.stats` (src/runner.py, lines 134-142) for one strategy:
`success` = the frequency of the total `nPrisoners` among the per-trial
success totals (0 when that total never occurs), `peak` = the most frequent
total, obtained by `idxmax` of the value counts. -/
def statsFor (nPrisoners : Nat) (table : List (List Bool)) : Except String (Nat × Nat) := do
  let sums := table.map colSum
  let peak ← idxmax (valueCounts sums)
  pure (sums.count nPrisoners, peak)

/-- C10: before any `simulate()` call the accumulated table is empty, and
`stats()` raises (the `peak` statistic is `idxmax` over an empty value-counts
series) rather than returning a zero-count summary. -/
theorem stats_empty_table_raises (nPrisoners : Nat) :
    statsFor nPrisoners [] =
      Except.error ("ValueError: attempt to get argmax of an empty sequence") := rfl

/-- The validated configuration produced by `Config.__init__` (src/config.py):
the required keys plus the normalized optional keys. -/
structure ConfigOut where
  nPrisoners : Nat
  nTrials : Nat
  lower : Option Bool
  chunks : Option Nat
  nEnvelopes : Nat
  schema : String
  param : Option Nat
deriving Repr, DecidableEq

/-- `Config._verify_opts` (src/config.py, lines 85-175) over well-typed
inputs (`Option` marks an absent key; for `chunks`, `some none` is the key
given explicitly as `None`).  When `nEnvelopes` is given explicitly, the
integer check at line 147 passes and line 148 runs
`_standardize(self._opts, 'chunks', int)` — a misdirected re-standardization
of `chunks` rather than `nEnvelopes` — which evaluates `int(chunks)`: if
`chunks` was normalized to `None` (key absent, given as `0`, or given as
`None`), this raises `TypeError`, which the surrounding `except ValueError`
does not catch, so construction aborts.  On every other path the source only
warns and normalizes: `nEnvelopes < nPrisoners` is repaired by coercion
(lines 155-158), `param` is never inspected, and no `InvalidConfig` exists
anywhere in the code. -/
def verifyOpts (nPrisoners nTrials : Nat) (lower : Option Bool)
    (chunks : Option (Option Nat)) (nEnvelopes : Option Nat)
    (schema : Option String) (param : Option Nat) : Except String ConfigOut :=
  let lowerN : Option Bool :=
    match lower with
    | none => if nPrisoners % 2 = 1 then some true else none
    | some b => some b
  let chunksN : Option Nat :=
    match chunks with
    | none => none
    | some none => none
    | some (some 0) => none
    | some (some k) => some k
  let schemaN : String :=
    match schema with
    | none => ("default")
    | some s => if s = ("default") ∨ s = ("modified") then s else ("default")
  match nEnvelopes with
  | none => Except.ok ⟨nPrisoners, nTrials, lowerN, chunksN, nPrisoners, schemaN, param⟩
  | some e =>
    match chunksN with
    | none => Except.error ("TypeError: int() argument cannot be NoneType")
    | some k =>
      Except.ok ⟨nPrisoners, nTrials, lowerN, some k,
        if e < nPrisoners then nPrisoners else e, schemaN, param⟩

/-- C6 counterexample: a configuration selecting the Modified policy with a
missing divisor and an explicit `chunks = 10` cadence (the shape of the
repository's own default config) passes construction — the verifier never
inspects the divisor and raises no `InvalidConfig` — contradicting the
claimed failure at configuration time. -/
theorem modified_missing_divisor_constructs :
    verifyOpts 4 1 (some true) (some (some 10)) (some 4) (some ("modified")) none =
      Except.ok ⟨4, 1, some true, some 10, 4, ("modified"), none⟩ := rfl

/-- C6 (amended): construction never validates the Modified divisor and no
`InvalidConfig` exists: with any explicit positive `chunks` cadence, or with
`nEnvelopes` left to default, a zero-or-missing-divisor configuration is
accepted unchanged, and the divisor failure surfaces only at run time, when
the first trial builds its `AttemptSchema`: `TypeError` for the missing
divisor (`nEnvelopes/None`), `ZeroDivisionError` for divisor zero.  (Such a
configuration can still fail at construction, but only incidentally: the
unrelated line-148 defect raises `TypeError` whenever `nEnvelopes` is
explicit and `chunks` is `None`, for any schema.) -/
theorem modified_bad_divisor_fails_at_run_time (nP nT e k : Nat) (b lw : Bool) :
    verifyOpts nP nT (some b) (some (some (k + 1))) (some e) (some ("modified")) none =
      Except.ok ⟨nP, nT, some b, some (k + 1),
        if e < nP then nP else e, ("modified"), none⟩ ∧
    verifyOpts nP nT (some b) none none (some ("modified")) none =
      Except.ok ⟨nP, nT, some b, none, nP, ("modified"), none⟩ ∧
    attemptCompute e ("modified") none lw =
      Except.error ("TypeError: unsupported operand type for /: int and NoneType") ∧
    attemptCompute e ("modified") (some 0) lw =
      Except.error ("ZeroDivisionError: division by zero") :=
  ⟨rfl, rfl, rfl, rfl⟩

/-- C7 counterexample: with `nEnvelopes = 2 < nPrisoners = 3` and an explicit
`chunks = 10` cadence, construction succeeds — the verifier warns and coerces
`nEnvelopes` up to `nPrisoners` — contradicting the claimed `InvalidConfig`
abort. -/
theorem small_envelope_count_constructs :
    verifyOpts 3 1 (some true) (some (some 10)) (some 2) none none =
      Except.ok ⟨3, 1, some true, some 10, 3, ("default"), none⟩ := rfl

/-- C7 (amended): when the slot count is strictly below the searcher count,
no `InvalidConfig` is raised.  With an explicit positive `chunks` cadence the
verifier warns and replaces `nEnvelopes` by `nPrisoners`, producing a
complete configuration; with `chunks` `None` (absent, `0`, or explicit)
construction does abort, but with the `TypeError` from the misdirected
line-148 chunks re-standardization — triggered by any explicitly given
`nEnvelopes`, regardless of the slot-count comparison. -/
theorem small_envelope_count_coerced (nP nT e k : Nat) (b : Bool) (pr : Option Nat)
    (h : e < nP) :
    verifyOpts nP nT (some b) (some (some (k + 1))) (some e) none pr =
      Except.ok ⟨nP, nT, some b, some (k + 1), nP, ("default"), pr⟩ ∧
    verifyOpts nP nT (some b) none (some e) none pr =
      Except.error ("TypeError: int() argument cannot be NoneType") := by
  refine ⟨?_, rfl⟩
  simp [verifyOpts, h]

/-- Witness for C7: `nEnvelopes = 1 < nPrisoners = 5`. -/
theorem small_envelope_count_coerced_witness :
    (verifyOpts 5 2 (some false) (some (some 1)) (some 1) none (some 7) =
      Except.ok ⟨5, 2, some false, some 1, 5, ("default"), some 7⟩) ∧
    (verifyOpts 5 2 (some false) none (some 1) none (some 7) =
      Except.error ("TypeError: int() argument cannot be NoneType")) :=
  small_envelope_count_coerced 5 2 1 0 false (some 7) (by decide)

/-- `AttemptSchema.__init__` (src/algorithms.py, lines 17-24) as invoked by
`Algorithm.__init__` during a trial: line 20 first evaluates
`kwargs.pop('lower')`, which raises `KeyError` when the config never set
`lower` (the verifier leaves it unset for an even `nPrisoners` with no
explicit `lower`); only then does the schema dispatch run. -/
def attemptSchemaInit (nEnvelopes : Nat) (schema : String) (param : Option Nat)
    (lower : Option Bool) : Except String Int :=
  match lower with
  | none => Except.error ("KeyError: lower")
  | some lw => attemptCompute nEnvelopes schema param lw

/-- One trial of one strategy (`Trial.run_all` via `_run_algo`, src/runner.py,
lines 39-58): for each prisoner in `np.arange(0, nPrisoners)` an `Algorithm`
is constructed — whose `AttemptSchema` (built from `len(envelopes)`) can
raise — and its result appended; with zero prisoners the loop body never
runs and the column is empty. -/
def trialColumn (cfg : ConfigOut) (env : List Nat)
    (outcome : List Nat → Nat → Bool) : Except String (List Bool) :=
  if cfg.nPrisoners = 0 then Except.ok []
  else
    match attemptSchemaInit env.length cfg.schema cfg.param cfg.lower with
    | Except.error msg => Except.error msg
    | Except.ok _ => Except.ok (runAlgoData (outcome env) (List.range cfg.nPrisoners))

/-- The trial loop of `Simulation.simulate` (src/runner.py, lines 168-184)
for one strategy: at trial `i` the progress guard is evaluated first (it can
raise, see `progressCheck`), then the trial runs (its `AttemptSchema`
construction can raise), then the trial's column is appended to the table by
`pd.concat(..., axis=1)`.  Any exception aborts the whole run. -/
def simulateGo (cfg : ConfigOut) (nTrials : Nat) (outcome : List Nat → Nat → Bool) :
    Nat → List (List Nat) → List (List Bool) → Except String (List (List Bool))
  | _, [], table => Except.ok table
  | i, env :: rest, table =>
    match progressCheck cfg.chunks nTrials i with
    | Except.error msg => Except.error msg
    | Except.ok _ =>
      match trialColumn cfg env outcome with
      | Except.error msg => Except.error msg
      | Except.ok col => simulateGo cfg nTrials outcome (i + 1) rest (table ++ [col])

/-- `Simulation.simulate` for one strategy: run `trialCount` trials (the list
`assignments` models the per-trial `np.random.shuffle` results, one per
trial) starting from the empty table. -/
def simulateRun (cfg : ConfigOut) (assignments : List (List Nat))
    (outcome : List Nat → Nat → Bool) : Except String (List (List Bool)) :=
  simulateGo cfg assignments.length outcome 0 assignments []

lemma trialColumn_length (cfg : ConfigOut) (env : List Nat)
    (outcome : List Nat → Nat → Bool) (col : List Bool)
    (h : trialColumn cfg env outcome = Except.ok col) :
    col.length = cfg.nPrisoners := by
  rw [trialColumn] at h
  by_cases h0 : cfg.nPrisoners = 0
  · rw [if_pos h0] at h
    obtain rfl : [] = col := Except.ok.inj h
    simp [h0]
  · rw [if_neg h0] at h
    cases hA : attemptSchemaInit env.length cfg.schema cfg.param cfg.lower with
    | error msg =>
      rw [hA] at h
      exact Except.noConfusion h
    | ok v =>
      rw [hA] at h
      obtain rfl : runAlgoData (outcome env) (List.range cfg.nPrisoners) = col :=
        Except.ok.inj h
      simp [runAlgoData]

lemma simulateGo_ok (cfg : ConfigOut) (nTrials : Nat) (outcome : List Nat → Nat → Bool) :
    ∀ (envs : List (List Nat)) (i : Nat) (acc table : List (List Bool)),
      simulateGo cfg nTrials outcome i envs acc = Except.ok table →
      table.length = acc.length + envs.length ∧
      table.map List.length =
        acc.map List.length ++ List.replicate envs.length cfg.nPrisoners := by
  intro envs
  induction envs with
  | nil =>
    intro i acc table h
    obtain rfl : acc = table := Except.ok.inj h
    simp
  | cons env rest ih =>
    intro i acc table h
    rw [simulateGo] at h
    cases hpc : progressCheck cfg.chunks nTrials i with
    | error msg =>
      rw [hpc] at h
      exact Except.noConfusion h
    | ok b =>
      rw [hpc] at h
      cases htc : trialColumn cfg env outcome with
      | error msg =>
        rw [htc] at h
        exact Except.noConfusion h
      | ok col =>
        rw [htc] at h
        obtain ⟨h1, h2⟩ := ih (i + 1) (acc ++ [col]) table h
        have hcol : col.length = cfg.nPrisoners := trialColumn_length cfg env outcome col htc
        constructor
        · simp only [List.length_append, List.length_cons, List.length_nil] at h1 ⊢
          omega
        · rw [h2, List.map_append]
          simp [hcol, List.replicate_succ]

/-- C4 counterexample: the configuration the verifier itself produces when
`chunks` is left unspecified (`chunks = None`) is valid, yet `simulate()`
with one trial aborts at trial 0 with a `TypeError` (the non-short-circuiting
progress guard, see C5) and yields an exception instead of a one-column
table. -/
theorem simulate_valid_config_no_table :
    verifyOpts 4 1 (some true) none none none none =
      Except.ok ⟨4, 1, some true, none, 4, ("default"), none⟩ ∧
    simulateRun ⟨4, 1, some true, none, 4, ("default"), none⟩ [[1, 0, 3, 2]]
      (fun _ _ => true) =
      Except.error ("TypeError: unsupported operand type for /: int and NoneType") :=
  ⟨rfl, rfl⟩

/-- C4 (amended): whenever `Simulation.simulate()` completes without raising
(the progress guard and every trial's `AttemptSchema` construction succeed),
the resulting boolean table has exactly one column per trial and exactly
`nPrisoners` rows in every column.  Completion is not guaranteed for every
valid configuration: `chunks = None` (the verifier's default), a missing
`lower` with even `nPrisoners`, `chunks` exceeding the trial count, or a bad
Modified divisor all abort the run before the table is finished. -/
theorem simulate_table_dims (cfg : ConfigOut) (assignments : List (List Nat))
    (outcome : List Nat → Nat → Bool) (table : List (List Bool))
    (h : simulateRun cfg assignments outcome = Except.ok table) :
    table.length = assignments.length ∧
    table.map List.length = List.replicate assignments.length cfg.nPrisoners := by
  obtain ⟨h1, h2⟩ := simulateGo_ok cfg assignments.length outcome assignments 0 [] table h
  simp only [List.length_nil, List.map_nil, List.nil_append, Nat.zero_add] at h1 h2
  exact ⟨h1, h2⟩

/-- Witness for C4: two trials, two searchers, `chunks = 1`: the run
completes and the table is 2 columns by 2 rows. -/
theorem simulate_table_dims_witness :
    ([[false, false], [false, false]] : List (List Bool)).length =
      ([[1, 0], [0, 1]] : List (List Nat)).length ∧
    ([[false, false], [false, false]] : List (List Bool)).map List.length =
      List.replicate ([[1, 0], [0, 1]] : List (List Nat)).length 2 :=
  simulate_table_dims ⟨2, 2, some true, some 1, 2, ("default"), none⟩
    [[1, 0], [0, 1]] (fun _ _ => false) [[false, false], [false, false]] (by rfl)

end PrisonerProblem
